import Mathlib

/-!
Verification of the va-template dashboard against its specification.

The definitions below are shallow embeddings of the TypeScript/SQL source:

* the monthly service-cycle state machine and its task checklist
  (tenant page component: `CYCLE_STATUS_ORDER`, `advanceCycle`, `pauseCycle`,
  `resumeCycle`, `startCycle`, `TASK_STATUS_NEXT`, `handleTaskToggle`);
* the intake-event status flow (`IntakeSection`, `submitTransaction`,
  the external-form ingestion endpoint);
* the transactions CSV export (`exportCSV`);
* the token-guarded API routes (`requireAdminToken`, `requireIntakeToken`,
  `POST /api/tenants`, `POST /api/tenant/[tenantId]/cycle/start`);
* the row-level-security policy layer of the initial schema migration
  (`is_tenant_member`, `create_member_policies`);
* the `service_cycles` upsert keyed on `(tenant_id, month)`.

Statuses, ids and months are carried as `String`, matching the source, which
manipulates them as raw strings and string-keyed records. Nullable values
(`null`/`undefined` in JavaScript, nullable columns in SQL) are `Option`;
fallible database calls are abstracted by their returned error
(`Option String`, `none` meaning success), matching the
`{ data, error }` shape of the client the routes use.
-/

namespace VaTemplate

/-! ## Service-cycle state machine -/

/-- `CYCLE_STATUS_ORDER` from the tenant page component: the linear order of
active cycle stages, ending in `delivered`. -/
def CYCLE_STATUS_ORDER : List String :=
  ["collecting", "processing", "reconciling", "reporting", "delivered"]

/-- `advanceCycle` from the tenant page component, restricted to its effect on
the cycle's status. `currentIdx` is `CYCLE_STATUS_ORDER.indexOf(cycle.status)`
(`none` models JavaScript's `-1`); the function returns without a database
write when the status is not in the order or already at the last stage, and —
when the cycle still has open (non-done) tasks — on the first click, before
the confirmation state has been set (`confirmAdvance !== cycle.id`). Otherwise
it writes `CYCLE_STATUS_ORDER[currentIdx + 1]`. -/
def advanceCycle (status : String) (openTasks : Nat) (confirmed : Bool) : String :=
  match CYCLE_STATUS_ORDER.indexOf? status with
  | none => status
  | some currentIdx =>
    if CYCLE_STATUS_ORDER.length - 1 ≤ currentIdx then status
    else if 0 < openTasks ∧ confirmed = false then status
    else CYCLE_STATUS_ORDER.getD (currentIdx + 1) status

/-- `pauseCycle` from the tenant page component: it records the cycle's current
status in the `prePauseStatus` map under the cycle's id, then writes status
`"paused"`. Returns the new status together with the updated map. -/
def pauseCycle (cycleId : String) (status : String) (prePauseStatus : String → Option String) :
    String × (String → Option String) :=
  ("paused", fun k => if k = cycleId then some status else prePauseStatus k)

/-- `resumeCycle` from the tenant page component: it writes
`prePauseStatus[cycle.id] ?? "collecting"` as the cycle's status and deletes
the cycle's entry from the map. -/
def resumeCycle (cycleId : String) (prePauseStatus : String → Option String) :
    String × (String → Option String) :=
  ((prePauseStatus cycleId).getD "collecting",
   fun k => if k = cycleId then none else prePauseStatus k)

/-! ## Task checklist -/

/-- `TASK_STATUS_NEXT` from the tenant page component, as a partial map. -/
def TASK_STATUS_NEXT (s : String) : Option String :=
  if s = "todo" then some "in_progress"
  else if s = "in_progress" then some "done"
  else if s = "done" then some "todo"
  else none

/-- The status written by one click of the task checkbox:
`TASK_STATUS_NEXT[task.status] ?? "todo"` (the argument `handleTaskToggle`
stores for the task). -/
def taskToggle (s : String) : String :=
  (TASK_STATUS_NEXT s).getD "todo"

/-! ## Starting a cycle: default task checklist -/

/-- The `defaultTasks` array, identical in the cycle-start API route and the
tenant page component's `startCycle`. -/
def defaultTasks : List String :=
  ["Collect statements", "Review intake events", "Categorize transactions",
   "Reconcile to bank", "Run BVA and variances", "Generate report pack",
   "Send insight summary", "Schedule review call"]

/-- A row of the `cycle_tasks` table as inserted by `startCycle`. -/
structure CycleTaskRow where
  service_cycle_id : String
  tenant_id : String
  task_type : String
  status : String
  deriving Repr, DecidableEq

/-- The status field of the `service_cycles` upsert performed by `startCycle`
and by the cycle-start API route. -/
def startCycleStatus : String := "collecting"

/-- The `cycle_tasks` rows inserted by `startCycle` (and by the cycle-start
API route) for the freshly upserted cycle `cycleId` of tenant `tenantId`:
one row per default task, each with status `"todo"`. -/
def startCycleTasks (cycleId tenantId : String) : List CycleTaskRow :=
  defaultTasks.map (fun t =>
    { service_cycle_id := cycleId, tenant_id := tenantId, task_type := t, status := "todo" })

/-! ## Intake status flow -/

/-- The status field of the `intake_events` row inserted by the external-form
ingestion endpoint (`POST` in the intake route): every accepted event is
stored with status `"new"`. -/
def intakeIngestStatus : String := "new"

/-- The fixed intake status enumeration, in flow order (the `intake_status`
enum of the schema: `new`, `categorized`, `posted`). -/
def intakeStatuses : List String := ["new", "categorized", "posted"]

/-- The one-step status transition available on an intake event in the
dashboard, per the action rendered for each status in `IntakeSection`:
a `new` event shows only "Mark categorized", whose handler writes
`categorized`; a `categorized` event shows only "Create transaction", whose
`submitTransaction` writes `posted` after inserting the transaction; a
`posted` event shows no action, and no other code path updates an intake
event's status. -/
def intakeNext (s : String) : Option String :=
  if s = "new" then some "categorized"
  else if s = "categorized" then some "posted"
  else none

/-- The position of a status in the intake flow order (JavaScript-style
`indexOf?`). -/
def intakeRank (s : String) : Option Nat := intakeStatuses.indexOf? s

/-! ## Row-level security -/

/-- A row of the `tenant_users` membership table. -/
structure TenantUserRow where
  tenant_id : String
  user_id : String
  deriving Repr, DecidableEq

/-- `is_tenant_member` from the initial schema migration: true iff some
`tenant_users` row links the current user (`auth.uid()`) to the given
tenant id. -/
def is_tenant_member (tenant_users : List TenantUserRow) (uid p_tenant_id : String) : Bool :=
  tenant_users.any (fun tu => tu.tenant_id == p_tenant_id && tu.user_id == uid)

/-- The `using` predicate that `create_member_policies` installs for `select`
on every tenant-scoped table: the row is visible iff
`is_tenant_member(tenant_id)` holds for the row's tenant column. -/
def memberPolicySelect (tenant_users : List TenantUserRow) (uid row_tenant_id : String) : Bool :=
  is_tenant_member tenant_users uid row_tenant_id

/-- The `with check` predicate installed for `insert` on every tenant-scoped
table. -/
def memberPolicyInsert (tenant_users : List TenantUserRow) (uid row_tenant_id : String) : Bool :=
  is_tenant_member tenant_users uid row_tenant_id

/-- The `using`/`with check` predicate installed for `update` on every
tenant-scoped table (both sides are the same membership check). -/
def memberPolicyUpdate (tenant_users : List TenantUserRow) (uid row_tenant_id : String) : Bool :=
  is_tenant_member tenant_users uid row_tenant_id

/-- The `using` predicate installed for `delete` on every tenant-scoped
table. -/
def memberPolicyDelete (tenant_users : List TenantUserRow) (uid row_tenant_id : String) : Bool :=
  is_tenant_member tenant_users uid row_tenant_id

/-! ## Transactions CSV export -/

/-- A row of the `transactions` table as loaded by the transactions page
(`id, date, description, category_id, amount, entity_id, status`).
`entity_id` is nullable; the numeric `amount` is carried as an integer, which
is all the export claims need of it. -/
structure Transaction where
  id : String
  date : String
  description : String
  category_id : String
  amount : Int
  entity_id : Option String
  status : String
  deriving Repr, DecidableEq

/-- A row of the `categories` table as loaded by the transactions page. -/
structure Category where
  category_id : String
  category_name : String
  type : String
  deriving Repr, DecidableEq

/-- `catMap[cid]`: the lookup in `Object.fromEntries(categories.map(c =>
[c.category_id, c]))` — on duplicate keys the last entry wins, hence the
search over the reversed list. -/
def catMap (categories : List Category) (cid : String) : Option Category :=
  categories.reverse.find? (fun c => c.category_id == cid)

/-- One character of the description's quote-doubling replacement: a double
quote becomes two double quotes, any other character is kept. -/
def dupQuote (c : Char) : List Char :=
  if c = '"' then ['"', '"'] else [c]

/-- The global quote-doubling replacement `exportCSV` applies to the
description before wrapping it in quotes. -/
def escapeQuotes (s : String) : String :=
  String.mk (s.data.map dupQuote).flatten

/-- The header row pushed first by `exportCSV`. -/
def csvHeader : List String :=
  ["Date", "Description", "Category", "Amount", "Entity", "Status"]

/-- The row `exportCSV` pushes for one filtered transaction: the date, the
description wrapped in double quotes with embedded quotes doubled, the
category name (falling back to the raw `category_id` when `catMap` has no
entry), the amount as a string, the entity id (empty string when null), and
the status. -/
def csvRow (categories : List Category) (t : Transaction) : List String :=
  [t.date,
   "\"" ++ escapeQuotes t.description ++ "\"",
   ((catMap categories t.category_id).map (fun c => c.category_name)).getD t.category_id,
   toString t.amount,
   t.entity_id.getD "",
   t.status]

/-- The full `rows` array built by `exportCSV`: the header followed by one
`csvRow` per filtered transaction, in the filtered order. -/
def exportCSVRows (categories : List Category) (filtered : List Transaction) :
    List (List String) :=
  csvHeader :: filtered.map (csvRow categories)

/-- The CSV text `exportCSV` downloads:
the rows joined by commas, and the joined rows joined by newlines. -/
def exportCSVText (categories : List Category) (filtered : List Transaction) : String :=
  String.intercalate "\n" ((exportCSVRows categories filtered).map (String.intercalate ","))

/-! ## POST /api/tenants: tenant creation with rollback -/

/-- Outcome of the tenant-creation handler: the HTTP status of the response,
and whether a tenant row and the creating user's owner membership row remain
in the database when the handler returns. -/
structure TenantsPostOutcome where
  status : Nat
  tenantRowRemains : Bool
  ownerMembershipRemains : Bool
  deriving Repr, DecidableEq

/-- `POST /api/tenants`, abstracted over its branch conditions in source
order: the `Authorization: Bearer` header shape, the Supabase env vars, the
resolved user, payload validation, then the tenant insert and the owner
membership insert (each `none` on success, `some msg` on a database error).
When the membership insert fails the handler deletes the just-created tenant
row and returns 500. -/
def tenantsPost (authHeaderOk envOk userOk payloadValid : Bool)
    (tenantInsertErr memberInsertErr : Option String) : TenantsPostOutcome :=
  if !authHeaderOk then ⟨401, false, false⟩
  else if !envOk then ⟨500, false, false⟩
  else if !userOk then ⟨401, false, false⟩
  else if !payloadValid then ⟨400, false, false⟩
  else
    match tenantInsertErr with
    | some _ => ⟨500, false, false⟩
    | none =>
      match memberInsertErr with
      | some _ => ⟨500, false, false⟩
      | none => ⟨200, true, true⟩

/-! ## Token guards -/

/-- JavaScript truthiness of a nullable string: `undefined`/`null` and the
empty string are falsy. -/
def jsTruthy : Option String → Bool
  | none => false
  | some s => !(s == "")

/-- `requireAdminToken` from the cycle-start route: it throws when
`DASHBOARD_ADMIN_TOKEN` is falsy (the handler's try/catch turns that into a
500 response), and otherwise reports whether the `x-admin-token` header is
truthy and strictly equal to the env token. -/
def requireAdminToken (envToken header : Option String) : Except String Bool :=
  if !(jsTruthy envToken) then Except.error "Missing DASHBOARD_ADMIN_TOKEN."
  else Except.ok (jsTruthy header && header == envToken)

/-- `requireIntakeToken` from the intake route: it throws when
`INTAKE_SHARED_SECRET` is falsy, returns false when the `x-intake-token`
header is falsy or differs from the secret, and true otherwise. -/
def requireIntakeToken (envSecret header : Option String) : Except String Bool :=
  if !(jsTruthy envSecret) then Except.error "Missing INTAKE_SHARED_SECRET."
  else if !(jsTruthy header) || !(header == envSecret) then Except.ok false
  else Except.ok true

/-- Outcome of a token-guarded endpoint: the HTTP status and whether any
database write was issued. -/
structure GuardedOutcome where
  status : Nat
  wrote : Bool
  deriving Repr, DecidableEq

/-- `POST /api/tenant/[tenantId]/cycle/start`, abstracted over the guard
inputs, payload validation, and the two database writes (the cycle upsert
and the tasks insert, each `none` on success). The guard's thrown error is
caught as a 500; a 401 or 400 is returned before any write is issued. -/
def cycleStartPost (envToken header : Option String) (payloadValid : Bool)
    (cycleErr tasksErr : Option String) : GuardedOutcome :=
  match requireAdminToken envToken header with
  | Except.error _ => ⟨500, false⟩
  | Except.ok false => ⟨401, false⟩
  | Except.ok true =>
    if !payloadValid then ⟨400, false⟩
    else
      match cycleErr, tasksErr with
      | some _, _ => ⟨500, true⟩
      | none, some _ => ⟨500, true⟩
      | none, none => ⟨200, true⟩

/-- The intake ingestion `POST`, abstracted the same way over its guard, its
payload validation, and its single `intake_events` insert. -/
def intakePost (envSecret header : Option String) (payloadValid : Bool)
    (insertErr : Option String) : GuardedOutcome :=
  match requireIntakeToken envSecret header with
  | Except.error _ => ⟨500, false⟩
  | Except.ok false => ⟨401, false⟩
  | Except.ok true =>
    if !payloadValid then ⟨400, false⟩
    else
      match insertErr with
      | some _ => ⟨500, true⟩
      | none => ⟨200, true⟩

/-! ## The service_cycles table and its upsert -/

/-- A row of the `service_cycles` table. -/
structure ServiceCycleRow where
  id : String
  tenant_id : String
  month : String
  status : String
  deriving Repr, DecidableEq

/-- The key predicate of the table's unique constraint `(tenant_id, month)`. -/
def cycleKeyMatch (tid month : String) (r : ServiceCycleRow) : Bool :=
  r.tenant_id == tid && r.month == month

/-- How many rows of the table carry the given `(tenant_id, month)` key. -/
def cycleKeyCount (table : List ServiceCycleRow) (tid month : String) : Nat :=
  table.countP (cycleKeyMatch tid month)

/-- The cycle-start upsert on `service_cycles` with
`onConflict: "tenant_id,month"`: when a row with the key exists, its status
is reset to `collecting` (no new row); otherwise a fresh row with status
`collecting` is inserted. -/
def upsertCycle (table : List ServiceCycleRow) (newId tid month : String) :
    List ServiceCycleRow :=
  if table.any (cycleKeyMatch tid month) then
    table.map (fun r =>
      if cycleKeyMatch tid month r then { r with status := "collecting" } else r)
  else
    table ++ [{ id := newId, tenant_id := tid, month := month, status := "collecting" }]

/-- A status update on `service_cycles` by row id, as issued by the advance,
pause and resume operations. -/
def updateCycleStatus (table : List ServiceCycleRow) (cycleId newStatus : String) :
    List ServiceCycleRow :=
  table.map (fun r => if r.id == cycleId then { r with status := newStatus } else r)

/-- The one-cycle-per-tenant-per-month invariant enforced by the unique
constraint on `(tenant_id, month)`. -/
def cyclesUnique (table : List ServiceCycleRow) : Prop :=
  ∀ tid month : String, cycleKeyCount table tid month ≤ 1

/-! ## Helper lemmas -/

/-- When the write goes through (no open tasks, or the advance was confirmed)
and the status sits strictly before the last stage, `advanceCycle` writes the
next element of `CYCLE_STATUS_ORDER`. -/
theorem advanceCycle_write (s t : String) (i openTasks : Nat) (confirmed : Bool)
    (hw : openTasks = 0 ∨ confirmed = true)
    (hi : CYCLE_STATUS_ORDER.indexOf? s = some i)
    (hlt : ¬ (CYCLE_STATUS_ORDER.length - 1 ≤ i))
    (ht : CYCLE_STATUS_ORDER.getD (i + 1) s = t) :
    advanceCycle s openTasks confirmed = t := by
  have h2 : ¬ (0 < openTasks ∧ confirmed = false) := by
    rcases hw with h | h <;> simp [h]
  unfold advanceCycle
  rw [hi]
  simp only [if_neg hlt, if_neg h2]
  simpa [List.getD] using ht

/-- A status at (or past) the last stage of `CYCLE_STATUS_ORDER`, or absent
from it, is left unchanged by `advanceCycle`. -/
theorem advanceCycle_fixed (s : String) (openTasks : Nat) (confirmed : Bool)
    (h : ∀ i, CYCLE_STATUS_ORDER.indexOf? s = some i → CYCLE_STATUS_ORDER.length - 1 ≤ i) :
    advanceCycle s openTasks confirmed = s := by
  unfold advanceCycle
  cases hidx : CYCLE_STATUS_ORDER.indexOf? s with
  | none => rfl
  | some i => simp [h i hidx]

/-- Doubling quotes doubles exactly the quote count of a character list. -/
theorem flatten_map_dupQuote_count (l : List Char) :
    ((l.map dupQuote).flatten).count '"' = 2 * l.count '"' := by
  induction l with
  | nil => rfl
  | cons c cs ih =>
    by_cases hc : c = '"'
    · subst hc
      simp [dupQuote, List.count_cons, ih]
      ring
    · simp [dupQuote, hc, List.count_cons, ih]

/-- A character list without double quotes is unchanged by quote doubling. -/
theorem flatten_map_dupQuote_id (l : List Char) (h : ∀ c ∈ l, c ≠ '"') :
    (l.map dupQuote).flatten = l := by
  induction l with
  | nil => rfl
  | cons c cs ih =>
    have hc : c ≠ '"' := h c (List.mem_cons_self c cs)
    simp [dupQuote, hc, ih (fun x hx => h x (List.mem_cons_of_mem c hx))]

/-- `requireAdminToken` accepts exactly when the env token is set (truthy)
and the header is a truthy string strictly equal to it. -/
theorem requireAdminToken_ok_true_iff (envToken header : Option String) :
    requireAdminToken envToken header = Except.ok true ↔
      (jsTruthy envToken = true ∧ jsTruthy header = true ∧ header = envToken) := by
  unfold requireAdminToken
  by_cases he : jsTruthy envToken = true
  · simp [he]
  · simp [Bool.not_eq_true] at he
    simp [he]

/-- `requireIntakeToken` accepts exactly when the shared secret is set
(truthy) and the header is a truthy string strictly equal to it. -/
theorem requireIntakeToken_ok_true_iff (envSecret header : Option String) :
    requireIntakeToken envSecret header = Except.ok true ↔
      (jsTruthy envSecret = true ∧ jsTruthy header = true ∧ header = envSecret) := by
  unfold requireIntakeToken
  by_cases he : jsTruthy envSecret = true
  · simp [he]
  · simp [Bool.not_eq_true] at he
    simp [he]

/-- `countP` is unchanged by a map that preserves the predicate pointwise. -/
theorem countP_map_eq {α : Type} (l : List α) (g : α → α) (p : α → Bool)
    (h : ∀ r, p (g r) = p r) : (l.map g).countP p = l.countP p := by
  induction l with
  | nil => rfl
  | cons a as ih => simp [List.countP_cons, h, ih]

/-- Upserting a cycle leaves exactly one row with the upserted
`(tenant_id, month)` key. -/
theorem cycleKeyCount_upsert_self (table : List ServiceCycleRow)
    (newId tid month : String) (huniq : cyclesUnique table) :
    cycleKeyCount (upsertCycle table newId tid month) tid month = 1 := by
  unfold upsertCycle
  by_cases hex : table.any (cycleKeyMatch tid month) = true
  · simp only [hex, if_true]
    have heq : cycleKeyCount (table.map (fun r =>
        if cycleKeyMatch tid month r then { r with status := "collecting" } else r))
        tid month = cycleKeyCount table tid month := by
      apply countP_map_eq
      intro r
      by_cases hr : cycleKeyMatch tid month r = true
      · simp only [hr, if_true]
        simpa [cycleKeyMatch] using hr
      · simp [hr]
    have hpos : 0 < cycleKeyCount table tid month := by
      rw [cycleKeyCount, List.countP_pos_iff]
      exact List.any_eq_true.mp hex
    have hle := huniq tid month
    unfold cycleKeyCount at heq hpos hle ⊢
    omega
  · have hex2 : table.any (cycleKeyMatch tid month) = false := by simpa using hex
    simp only [hex2, Bool.false_eq_true, if_false]
    have h0 : table.countP (cycleKeyMatch tid month) = 0 := by
      rw [List.countP_eq_zero]
      intro a ha
      exact (List.any_eq_false.mp hex2) a ha
    unfold cycleKeyCount
    rw [List.countP_append, h0]
    simp [cycleKeyMatch]

/-- The upsert preserves the one-cycle-per-`(tenant_id, month)` invariant. -/
theorem upsertCycle_unique (table : List ServiceCycleRow) (newId tid month : String)
    (huniq : cyclesUnique table) : cyclesUnique (upsertCycle table newId tid month) := by
  intro tid2 month2
  unfold upsertCycle
  by_cases hex : table.any (cycleKeyMatch tid month) = true
  · simp only [hex, if_true]
    unfold cycleKeyCount
    rw [countP_map_eq]
    · exact huniq tid2 month2
    · intro r
      by_cases hr : cycleKeyMatch tid month r = true
      · simp only [hr, if_true]
        rfl
      · simp [hr]
  · have hex2 : table.any (cycleKeyMatch tid month) = false := by simpa using hex
    simp only [hex2, Bool.false_eq_true, if_false]
    unfold cycleKeyCount
    rw [List.countP_append]
    by_cases hnew : cycleKeyMatch tid2 month2
        { id := newId, tenant_id := tid, month := month, status := "collecting" } = true
    · have hkey : tid = tid2 ∧ month = month2 := by
        simpa [cycleKeyMatch, Bool.and_eq_true, beq_iff_eq] using hnew
      have h0 : table.countP (cycleKeyMatch tid2 month2) = 0 := by
        rw [List.countP_eq_zero]
        intro a ha
        rw [← hkey.1, ← hkey.2]
        exact (List.any_eq_false.mp hex2) a ha
      rw [h0]
      simp [hnew]
    · have hb : cycleKeyMatch tid2 month2
          { id := newId, tenant_id := tid, month := month, status := "collecting" } = false := by
        simpa using hnew
      simp only [List.countP_cons, List.countP_nil, hb, Bool.false_eq_true, if_false]
      have hle := huniq tid2 month2
      unfold cycleKeyCount at hle
      omega

/-- A status update by id preserves the invariant (it touches no key
column). -/
theorem updateCycleStatus_unique (table : List ServiceCycleRow)
    (cycleId newStatus : String) (huniq : cyclesUnique table) :
    cyclesUnique (updateCycleStatus table cycleId newStatus) := by
  intro tid2 month2
  unfold updateCycleStatus cycleKeyCount
  rw [countP_map_eq]
  · exact huniq tid2 month2
  · intro r
    by_cases hr : (r.id == cycleId) = true
    · simp only [hr, if_true]
      rfl
    · simp [hr]

/-! ## Claim C1: the cycle advance follows the linear stage order -/

/-- Claim C1: for every cycle whose status is one of `collecting`,
`processing`, `reconciling`, `reporting`, the advance operation (once it
performs its write: no open tasks, or the user confirmed) changes the status
to exactly the next element of the linear order `collecting, processing,
reconciling, reporting, delivered`; a cycle in status `delivered` or `paused`
is never changed by `advanceCycle`, so a cycle never moves past `delivered`
and never skips a stage. -/
theorem advanceCycle_linear_order (openTasks : Nat) (confirmed : Bool)
    (hwrite : openTasks = 0 ∨ confirmed = true) :
    advanceCycle "collecting" openTasks confirmed = "processing" ∧
    advanceCycle "processing" openTasks confirmed = "reconciling" ∧
    advanceCycle "reconciling" openTasks confirmed = "reporting" ∧
    advanceCycle "reporting" openTasks confirmed = "delivered" ∧
    (∀ (n : Nat) (c : Bool), advanceCycle "delivered" n c = "delivered") ∧
    (∀ (n : Nat) (c : Bool), advanceCycle "paused" n c = "paused") := by
  refine ⟨advanceCycle_write _ _ 0 _ _ hwrite (by decide) (by decide) (by decide),
          advanceCycle_write _ _ 1 _ _ hwrite (by decide) (by decide) (by decide),
          advanceCycle_write _ _ 2 _ _ hwrite (by decide) (by decide) (by decide),
          advanceCycle_write _ _ 3 _ _ hwrite (by decide) (by decide) (by decide),
          fun n c => advanceCycle_fixed _ n c ?_,
          fun n c => advanceCycle_fixed _ n c ?_⟩
  · intro i hi
    rw [show CYCLE_STATUS_ORDER.indexOf? "delivered" = some 4 by decide] at hi
    injection hi with hi
    rw [show CYCLE_STATUS_ORDER.length = 5 from rfl]
    omega
  · intro i hi
    rw [show CYCLE_STATUS_ORDER.indexOf? "paused" = none by decide] at hi
    cases hi

/-- Witness for C1 at a concrete input: a cycle with no open tasks advances
from `collecting` to `processing`. -/
theorem advanceCycle_linear_order_witness :
    advanceCycle "collecting" 0 false = "processing" :=
  (advanceCycle_linear_order 0 false (Or.inl rfl)).1

/-! ## Claim C2: pause is a side-state and resume round-trips -/

/-- Claim C2: pausing a cycle in a non-paused, non-delivered status `s` writes
status `paused` (recording `s`), and resuming the paused cycle restores
exactly `s`: resume after pause is a round-trip back to `s`. -/
theorem pause_resume_roundtrip (cycleId s : String) (pre : String → Option String)
    (hp : s ≠ "paused") (hd : s ≠ "delivered") :
    (pauseCycle cycleId s pre).1 = "paused" ∧
    (resumeCycle cycleId (pauseCycle cycleId s pre).2).1 = s := by
  refine ⟨rfl, ?_⟩
  simp [pauseCycle, resumeCycle]

/-- Witness for C2 at a concrete input: pausing a `processing` cycle and
resuming it restores `processing`. -/
theorem pause_resume_roundtrip_witness :
    (pauseCycle "c1" "processing" (fun _ => none)).1 = "paused" ∧
    (resumeCycle "c1" (pauseCycle "c1" "processing" (fun _ => none)).2).1 = "processing" :=
  pause_resume_roundtrip "c1" "processing" (fun _ => none) (by decide) (by decide)

/-! ## Claim C3: starting a cycle creates the fixed checklist -/

/-- Claim C3: starting a cycle upserts the cycle with status `collecting` and
inserts exactly the 8 fixed default tasks, in order, each with status `todo`
and each linked to that cycle id and tenant id. -/
theorem startCycle_default_checklist (cycleId tenantId : String) :
    startCycleStatus = "collecting" ∧
    defaultTasks = ["Collect statements", "Review intake events",
      "Categorize transactions", "Reconcile to bank", "Run BVA and variances",
      "Generate report pack", "Send insight summary", "Schedule review call"] ∧
    (startCycleTasks cycleId tenantId).length = 8 ∧
    (startCycleTasks cycleId tenantId).map (fun r => r.task_type) = defaultTasks ∧
    (startCycleTasks cycleId tenantId).all
      (fun r => r.status == "todo" && r.service_cycle_id == cycleId &&
        r.tenant_id == tenantId) = true := by
  refine ⟨rfl, rfl, rfl, ?_, ?_⟩ <;> simp [startCycleTasks, defaultTasks]

/-! ## Claim C4: the intake status flow is forward-only -/

/-- Claim C4: every event accepted by the ingestion endpoint is stored with
status `new`; the only transitions any operation performs are
`new → categorized` and `categorized → posted`; a `posted` event has no
transition; and every transition moves exactly one step forward in the fixed
three-value enumeration `new, categorized, posted` (never backwards, never
outside it). -/
theorem intake_flow_forward_only :
    intakeIngestStatus = "new" ∧
    intakeNext "new" = some "categorized" ∧
    intakeNext "categorized" = some "posted" ∧
    intakeNext "posted" = none ∧
    (∀ s t : String, intakeNext s = some t →
      s ∈ intakeStatuses ∧ t ∈ intakeStatuses ∧
      (intakeRank s).map (fun i => i + 1) = intakeRank t) := by
  refine ⟨rfl, rfl, rfl, rfl, ?_⟩
  intro s t h
  unfold intakeNext at h
  split_ifs at h with h1 h2
  · subst h1
    injection h with h
    subst h
    refine ⟨by decide, by decide, by decide⟩
  · subst h2
    injection h with h
    subst h
    refine ⟨by decide, by decide, by decide⟩

/-- Witness for C4 at a concrete input: the `new → categorized` transition
moves rank 0 to rank 1. -/
theorem intake_flow_forward_only_witness :
    "new" ∈ intakeStatuses ∧ "categorized" ∈ intakeStatuses ∧
    (intakeRank "new").map (fun i => i + 1) = intakeRank "categorized" :=
  intake_flow_forward_only.2.2.2.2 "new" "categorized" (by decide)

/-! ## Claim C5: row-level security is exactly tenant membership -/

/-- Claim C5: on every tenant-scoped table, the installed policies allow a
user to select, insert, update or delete a row if and only if a
`tenant_users` membership row links that user to the row's `tenant_id` (all
four policies are the same membership check); consequently, when no
membership row gives user `u1` a tenant that user `u2` is also a member of,
`u1`'s ability to select a row implies `u2` can neither observe nor affect
it. -/
theorem rls_tenant_isolation (tus : List TenantUserRow) (u1 u2 rowTenant : String)
    (hdisj : ∀ tu ∈ tus, tu.user_id = u1 → is_tenant_member tus u2 tu.tenant_id = false) :
    (∀ u rt : String,
      (memberPolicySelect tus u rt = true ↔
        ∃ tu ∈ tus, tu.tenant_id = rt ∧ tu.user_id = u) ∧
      memberPolicyInsert tus u rt = memberPolicySelect tus u rt ∧
      memberPolicyUpdate tus u rt = memberPolicySelect tus u rt ∧
      memberPolicyDelete tus u rt = memberPolicySelect tus u rt) ∧
    (memberPolicySelect tus u1 rowTenant = true →
      memberPolicySelect tus u2 rowTenant = false ∧
      memberPolicyInsert tus u2 rowTenant = false ∧
      memberPolicyUpdate tus u2 rowTenant = false ∧
      memberPolicyDelete tus u2 rowTenant = false) := by
  constructor
  · intro u rt
    refine ⟨?_, rfl, rfl, rfl⟩
    simp [memberPolicySelect, is_tenant_member, List.any_eq_true,
      Bool.and_eq_true, beq_iff_eq]
  · intro h1
    have hex : ∃ tu ∈ tus, tu.tenant_id = rowTenant ∧ tu.user_id = u1 := by
      simpa [memberPolicySelect, is_tenant_member, List.any_eq_true,
        Bool.and_eq_true, beq_iff_eq] using h1
    obtain ⟨tu, htu, hteq, hueq⟩ := hex
    have hfalse : is_tenant_member tus u2 rowTenant = false := by
      have h2 := hdisj tu htu hueq
      rwa [hteq] at h2
    exact ⟨hfalse, hfalse, hfalse, hfalse⟩

/-- Witness for C5 at a concrete input: with memberships
`[(t1, u1), (t2, u2)]` (disjoint tenants), user `u2` can neither select,
insert, update nor delete a row of tenant `t1`. -/
theorem rls_tenant_isolation_witness :
    memberPolicySelect [⟨"t1", "u1"⟩, ⟨"t2", "u2"⟩] "u2" "t1" = false ∧
    memberPolicyInsert [⟨"t1", "u1"⟩, ⟨"t2", "u2"⟩] "u2" "t1" = false ∧
    memberPolicyUpdate [⟨"t1", "u1"⟩, ⟨"t2", "u2"⟩] "u2" "t1" = false ∧
    memberPolicyDelete [⟨"t1", "u1"⟩, ⟨"t2", "u2"⟩] "u2" "t1" = false :=
  (rls_tenant_isolation [⟨"t1", "u1"⟩, ⟨"t2", "u2"⟩] "u1" "u2" "t1"
    (by decide)).2 (by decide)

/-! ## Claim C6: the task toggle is a 3-cycle -/

/-- Claim C6: one toggle of a task cycles its status through the fixed order
`todo → in_progress → done → todo`; an unknown status maps to `todo`; toggling
a task three times from any of the three statuses returns it to its original
status. -/
theorem taskToggle_three_cycle :
    taskToggle "todo" = "in_progress" ∧
    taskToggle "in_progress" = "done" ∧
    taskToggle "done" = "todo" ∧
    (∀ s : String, s ∉ (["todo", "in_progress", "done"] : List String) →
      taskToggle s = "todo") ∧
    (∀ s : String, s ∈ (["todo", "in_progress", "done"] : List String) →
      taskToggle (taskToggle (taskToggle s)) = s) := by
  refine ⟨by decide, by decide, by decide, ?_, ?_⟩
  · intro s hs
    simp only [List.mem_cons, List.not_mem_nil, or_false, not_or] at hs
    simp [taskToggle, TASK_STATUS_NEXT, hs.1, hs.2.1, hs.2.2]
  · intro s hs
    simp only [List.mem_cons, List.not_mem_nil, or_false] at hs
    rcases hs with h | h | h <;> subst h <;> decide

/-- Witness for C6 at a concrete input: three toggles starting from
`in_progress` return the task to `in_progress`. -/
theorem taskToggle_three_cycle_witness :
    taskToggle (taskToggle (taskToggle "in_progress")) = "in_progress" :=
  taskToggle_three_cycle.2.2.2.2 "in_progress" (by decide)

/-! ## Claim C7: the shape of the CSV export -/

/-- Claim C7: the export builds exactly one header row
(`Date, Description, Category, Amount, Entity, Status`) plus one row per
filtered transaction, in the filtered order; each description cell is the
description wrapped in double quotes with every embedded double quote
doubled (a description without quotes is unchanged inside the wrapper); the
category cell falls back to the raw `category_id` when no matching category
exists; and a null `entity_id` becomes the empty string. -/
theorem exportCSV_spec (categories : List Category) (filtered : List Transaction) :
    (exportCSVRows categories filtered).length = filtered.length + 1 ∧
    (exportCSVRows categories filtered).head? = some csvHeader ∧
    (∀ i : Nat, (exportCSVRows categories filtered)[i + 1]? =
      (filtered[i]?).map (csvRow categories)) ∧
    (∀ t : Transaction, (csvRow categories t)[1]? =
      some ("\"" ++ escapeQuotes t.description ++ "\"")) ∧
    (∀ s : String, (escapeQuotes s).data.count '"' = 2 * s.data.count '"') ∧
    (∀ s : String, (∀ c ∈ s.data, c ≠ '"') → escapeQuotes s = s) ∧
    (∀ t : Transaction, catMap categories t.category_id = none →
      (csvRow categories t)[2]? = some t.category_id) ∧
    (∀ t : Transaction, t.entity_id = none → (csvRow categories t)[4]? = some "") := by
  refine ⟨by simp [exportCSVRows], rfl, ?_, ?_, ?_, ?_, ?_, ?_⟩
  · intro i
    simp [exportCSVRows]
  · intro t
    rfl
  · intro s
    simpa [escapeQuotes] using flatten_map_dupQuote_count s.data
  · intro s h
    cases s with
    | mk l => exact congrArg String.mk (flatten_map_dupQuote_id l h)
  · intro t h
    simp [csvRow, h]
  · intro t h
    simp [csvRow, h]

/-- Witness for C7 at a concrete input: for a transaction whose category id
has no matching category and whose entity id is null, the category cell is
the raw id and the entity cell is empty. -/
theorem exportCSV_spec_witness :
    (csvRow [] ⟨"tx1", "2026-01-05", "say \"hi\"", "1100", 5, none, "Planned"⟩)[2]? =
      some "1100" ∧
    (csvRow [] ⟨"tx1", "2026-01-05", "say \"hi\"", "1100", 5, none, "Planned"⟩)[4]? =
      some "" :=
  ⟨(exportCSV_spec [] []).2.2.2.2.2.2.1
      ⟨"tx1", "2026-01-05", "say \"hi\"", "1100", 5, none, "Planned"⟩ rfl,
   (exportCSV_spec [] []).2.2.2.2.2.2.2
      ⟨"tx1", "2026-01-05", "say \"hi\"", "1100", 5, none, "Planned"⟩ rfl⟩

/-! ## Claim C8: tenant creation rolls back on membership failure -/

/-- Claim C8: in `POST /api/tenants`, if the owner-membership insert fails
after the tenant row was inserted, the handler deletes the just-created
tenant row and returns 500; on every path, a remaining tenant row implies a
remaining owner membership, so no tenant without an owner membership is left
behind by a failed request. -/
theorem tenantsPost_rollback (a e u p : Bool) (te me : Option String) :
    (∀ msg : String, tenantsPost true true true true none (some msg) =
      ⟨500, false, false⟩) ∧
    ((tenantsPost a e u p te me).tenantRowRemains = true →
      (tenantsPost a e u p te me).ownerMembershipRemains = true) := by
  constructor
  · intro msg
    rfl
  · cases a <;> cases e <;> cases u <;> cases p <;> rcases te with _ | t <;>
      rcases me with _ | m <;> simp [tenantsPost]

/-- Witness for C8 at a concrete input: on the all-success path the tenant
row remains and so does the owner membership. -/
theorem tenantsPost_rollback_witness :
    (tenantsPost true true true true none none).ownerMembershipRemains = true :=
  (tenantsPost_rollback true true true true none none).2 (by decide)

/-! ## Claim C9: token guards reject before any write -/

/-- Claim C9: the cycle-start endpoint returns 401 and issues no database
write unless the `x-admin-token` header exactly equals the (set, non-empty)
`DASHBOARD_ADMIN_TOKEN`, and returns 500 without writing when the env var is
unset; the intake endpoint behaves the same way with `x-intake-token` and
`INTAKE_SHARED_SECRET`; in both, a write is only ever issued when the header
equals the set env token. -/
theorem token_guards_reject_before_write (envT envS header : Option String)
    (payloadValid : Bool) (cycleErr tasksErr insertErr : Option String) :
    (jsTruthy envT = false →
      cycleStartPost envT header payloadValid cycleErr tasksErr = ⟨500, false⟩) ∧
    (jsTruthy envT = true → header ≠ envT →
      cycleStartPost envT header payloadValid cycleErr tasksErr = ⟨401, false⟩) ∧
    ((cycleStartPost envT header payloadValid cycleErr tasksErr).wrote = true →
      header = envT ∧ jsTruthy envT = true) ∧
    (jsTruthy envS = false →
      intakePost envS header payloadValid insertErr = ⟨500, false⟩) ∧
    (jsTruthy envS = true → header ≠ envS →
      intakePost envS header payloadValid insertErr = ⟨401, false⟩) ∧
    ((intakePost envS header payloadValid insertErr).wrote = true →
      header = envS ∧ jsTruthy envS = true) := by
  refine ⟨?_, ?_, ?_, ?_, ?_, ?_⟩
  · intro h
    simp [cycleStartPost, requireAdminToken, h]
  · intro h1 h2
    have hg : requireAdminToken envT header = Except.ok false := by
      unfold requireAdminToken
      simp [h1, beq_eq_false_iff_ne.mpr h2]
    simp [cycleStartPost, hg]
  · intro hw
    cases hg : requireAdminToken envT header with
    | error msg => simp [cycleStartPost, hg] at hw
    | ok b =>
      cases b with
      | false => simp [cycleStartPost, hg] at hw
      | true =>
        have h := (requireAdminToken_ok_true_iff envT header).mp hg
        exact ⟨h.2.2, h.1⟩
  · intro h
    simp [intakePost, requireIntakeToken, h]
  · intro h1 h2
    have hg : requireIntakeToken envS header = Except.ok false := by
      unfold requireIntakeToken
      simp [h1, beq_eq_false_iff_ne.mpr h2]
    simp [intakePost, hg]
  · intro hw
    cases hg : requireIntakeToken envS header with
    | error msg => simp [intakePost, hg] at hw
    | ok b =>
      cases b with
      | false => simp [intakePost, hg] at hw
      | true =>
        have h := (requireIntakeToken_ok_true_iff envS header).mp hg
        exact ⟨h.2.2, h.1⟩

/-- Witness for C9 at a concrete input: with `DASHBOARD_ADMIN_TOKEN` unset,
the cycle-start endpoint answers 500 and writes nothing, whatever header was
sent. -/
theorem token_guards_reject_before_write_witness :
    cycleStartPost none (some "secret") true none none = ⟨500, false⟩ :=
  (token_guards_reject_before_write none (some "s") (some "secret") true
    none none none).1 (by decide)

/-! ## Claim C10: one cycle per tenant per month -/

/-- Claim C10: starting a cycle for a `(tenant_id, month)` pair that already
has one does not create a second row — the upsert on the unique key resets
the existing row's status (same length, same row ids) — and after any upsert
exactly one row carries that key; both the upsert and the status updates of
the other operations preserve the one-cycle-per-tenant-per-month
invariant. -/
theorem cycle_upsert_one_per_month (table : List ServiceCycleRow)
    (newId tid month cycleId newStatus : String)
    (huniq : cyclesUnique table) :
    cycleKeyCount (upsertCycle table newId tid month) tid month = 1 ∧
    cyclesUnique (upsertCycle table newId tid month) ∧
    (table.any (cycleKeyMatch tid month) = true →
      (upsertCycle table newId tid month).length = table.length ∧
      (upsertCycle table newId tid month).map (fun r => r.id) =
        table.map (fun r => r.id)) ∧
    cyclesUnique (updateCycleStatus table cycleId newStatus) := by
  refine ⟨cycleKeyCount_upsert_self table newId tid month huniq,
          upsertCycle_unique table newId tid month huniq, ?_,
          updateCycleStatus_unique table cycleId newStatus huniq⟩
  intro hex
  constructor
  · simp [upsertCycle, hex]
  · simp only [upsertCycle, hex, if_true, List.map_map]
    apply List.map_congr_left
    intro a ha
    by_cases hr : cycleKeyMatch tid month a = true <;> simp [hr]

/-- Witness for C10 at a concrete input: upserting into an empty table yields
exactly one row for the key. -/
theorem cycle_upsert_one_per_month_witness :
    cycleKeyCount (upsertCycle [] "c1" "t1" "2026-03-01") "t1" "2026-03-01" = 1 :=
  (cycle_upsert_one_per_month [] "c1" "t1" "2026-03-01" "c1" "processing"
    (fun tid month => by simp [cycleKeyCount])).1

end VaTemplate
